import Mathlib

/-!
# Verification of the xivomega run orchestrator

Shallow embedding of `run.py`: the address-planning arithmetic
(`cidr_to_netmask` and the `ipaddress`-based subnet/broadcast pipeline),
the IPv4 override validation chain, the random address allocator
(`get_vip_lip`), the teardown routine (`SelfDestructProtocol`), the route
installer (`SetRoutes`), and the top-level `__main__` control flow with its
try/except/finally structure, connectivity retry loop and exit codes.

External commands (podman / ip / iptables invocations) are modelled by an
oracle giving each successive call's outcome; Python exceptions are
modelled with `Except`, the `finally` clause by explicit post-processing of
the body's result.
-/

namespace Xivomega

/-! ## Address arithmetic (run.py: cidr_to_netmask, ipaddress usage) -/

/-- `cidr_to_netmask` in run.py computes the netmask integer as
`(1 << 32) - (1 << host_bits)` with `host_bits = 32 - net_bits`. -/
def cidr_to_netmask (p : Nat) : Nat := (1 <<< 32) - (1 <<< (32 - p))

/-- Network address as computed by
`ipaddress.ip_network(addr + '/' + netmask, strict=False)`:
the address bitwise-ANDed with the netmask integer. -/
def networkAddressOf (addr p : Nat) : Nat := addr &&& cidr_to_netmask p

/-- Broadcast address as computed by `IPv4Network.broadcast_address`:
network OR hostmask, where hostmask is the netmask XORed with `2^32 - 1`. -/
def broadcastOf (addr p : Nat) : Nat :=
  networkAddressOf addr p ||| (cidr_to_netmask p ^^^ ((1 <<< 32) - 1))

/-- The spec's "p-bit netmask": p one-bits followed by `32 - p` zero-bits. -/
def specNetmask (p : Nat) : Nat := (2 ^ p - 1) * 2 ^ (32 - p)

/-- The spec's network address: adapter address AND the p-bit netmask. -/
def specNetwork (addr p : Nat) : Nat := addr &&& specNetmask p

/-- The spec's broadcast address: network OR the complement of the netmask. -/
def specBroadcast (addr p : Nat) : Nat :=
  specNetwork addr p ||| (specNetmask p ^^^ (2 ^ 32 - 1))

/-! ## IPv4 address validation (run.py: is_valid_ipv4_address)

Models `socket.inet_pton(AF_INET, address)` on Linux: exactly four
dot-separated decimal fields, each 1–3 digits with no leading zero
(unless the field is exactly "0"), each at most 255.  The
`AttributeError` fallback to `inet_aton` never triggers on a platform
that has `inet_pton`, so it is not modelled.  The string is processed as
its character list. -/

/-- Split a character list at every dot, keeping empty fields. -/
def splitOnDot : List Char → List (List Char)
  | [] => [[]]
  | c :: cs =>
    if c = '.' then [] :: splitOnDot cs
    else
      match splitOnDot cs with
      | [] => [[c]]
      | h :: t => (c :: h) :: t

/-- Decimal value of a digit sequence. -/
def digitsToNat (l : List Char) : Nat :=
  l.foldl (fun a c => a * 10 + (c.toNat - 48)) 0

/-- One dotted-quad field as `inet_pton` accepts it. -/
def validOctet (l : List Char) : Bool :=
  decide (1 ≤ l.length) && decide (l.length ≤ 3) && l.all Char.isDigit &&
    (decide (l.length = 1) || decide (l.headD '0' ≠ '0')) &&
    decide (digitsToNat l ≤ 255)

def is_valid_ipv4_address (address : String) : Bool :=
  decide ((splitOnDot address.toList).length = 4) &&
    (splitOnDot address.toList).all validOctet

/-- Inverse rendering used only in proofs: parse a dotted quad back into
its 32-bit value (0 if not a quad). -/
def ipNatOf (s : String) : Nat :=
  match splitOnDot s.toList with
  | [a, b, c, d] =>
    ((digitsToNat a * 256 + digitsToNat b) * 256 + digitsToNat c) * 256 +
      digitsToNat d
  | _ => 0

/-! ## Override selection (run.py lines 435–454)

The if/elif chain that replaces the randomly allocated pair
`(dvip, dlip)` with configured overrides.  Note the condition on the
both-overrides branch tests `ipvlan_host` twice — reproduced verbatim
from the source (the workload-side override is never validated there). -/

def selectAddresses (cfgHost cfgCont dvip dlip : String) :
    Except Unit (String × String) :=
  if cfgHost ≠ "default" ∧ cfgCont ≠ "default" then
    -- sic: the source checks is_valid_ipv4_address(config_v['ipvlan_host']) twice
    if is_valid_ipv4_address cfgHost = true ∧ is_valid_ipv4_address cfgHost = true then
      Except.ok (cfgHost, cfgCont)
    else Except.error ()
  else if cfgHost ≠ "default" ∧ cfgCont = "default" then
    if is_valid_ipv4_address cfgHost = true then
      Except.ok (cfgHost, dlip)
    else Except.error ()
  else if cfgHost = "default" ∧ cfgCont ≠ "default" then
    if is_valid_ipv4_address cfgCont = true then
      Except.ok (dvip, cfgCont)
    else Except.error ()
  else Except.ok (dvip, dlip)

/-! ## Random address allocation (run.py: get_vip_lip)

`get_vip_lip` builds `allip = [str(ip) for ip in IPv4Network(subnaddr)]`,
slices `useable_ip = allip[3:-2]`, filters out the discovered in-use
addresses, and draws two distinct positions via `random.sample(res, 2)`.
The ARP discovery (`scan`) is an external probe; its result arrives as
the `ips` argument.  The random draw is modelled by the two chosen
positions `i`, `j`; `random.sample` guarantees they are distinct and in
range, and returning `none` models the `ValueError` it raises otherwise. -/

/-- Dotted-quad rendering of a 32-bit address, as `str(IPv4Address)`. -/
def ipToString (n : Nat) : String :=
  toString (n / 2 ^ 24 % 256) ++ "." ++ toString (n / 2 ^ 16 % 256) ++ "." ++
    toString (n / 2 ^ 8 % 256) ++ "." ++ toString (n % 256)

/-- `[str(ip) for ip in ipaddress.IPv4Network(subnaddr)]`: every address of
the subnet, network and broadcast included, in ascending order. -/
def allipOf (network p : Nat) : List String :=
  (List.range (2 ^ (32 - p))).map (fun k => ipToString (network + k))

/-- `useable_ip = allip[3:-2]`. -/
def useable_ip (allip : List String) : List String :=
  ((allip.drop 3).dropLast).dropLast

/-- `res = [i for i in useable_ip if i not in ips]`. -/
def resPool (ips allip : List String) : List String :=
  (useable_ip allip).filter (fun x => decide (x ∉ ips))

/-- `vip, lip = sample(res, 2)` with the random draw made explicit as the
pair of chosen positions. -/
def get_vip_lip (ips allip : List String) (i j : Nat) :
    Option (String × String) :=
  if h : i < (resPool ips allip).length ∧ j < (resPool ips allip).length ∧ i ≠ j then
    some ((resPool ips allip).get ⟨i, h.1⟩, (resPool ips allip).get ⟨j, h.2.1⟩)
  else none

/-! ## External commands

One constructor per external invocation issued by run.py, carrying the
data interpolated into the shell string. -/

inductive Cmd where
  | ipRouteDel (subnet : String)                       -- ip route del {r} via 10.88.0.7
  | ipRouteAdd (subnet : String)                       -- ip route add {r} via 10.88.0.7
  | podmanStop                                         -- podman stop xivomega
  | podmanRm                                           -- podman rm xivomega
  | podmanNetworkRm                                    -- podman network rm xivlanc
  | podmanNetworkDisconnect                            -- podman network disconnect xivlanc xivomega
  | ipLinkSetDown                                      -- ip link set xivlanh down
  | ipLinkDel                                          -- ip link del xivlanh
  | cpStorageConf                                      -- cp .../storage.conf /etc/containers/storage.conf
  | podmanNetworkCreate (subnet gateway parent : String)
  | ipLinkAddIpvlan (parent : String)                  -- ip link add xivlanh link {dev} type ipvlan mode l2
  | ipAddrAdd (vip netbits brd : String)               -- ip addr add {vip}/{netbits} brd {brd} dev xivlanh
  | ipLinkSetUp                                        -- ip link set xivlanh up
  | podmanCreate (ip : String)                         -- podman create --name=xivomega --ip=10.88.0.7 ...
  | podmanNetworkConnect (lip : String)                -- podman network connect xivlanc xivomega --ip={lip}
  | printLogo                                          -- titleCard.sh via subprocess.call
  | podmanStart                                        -- podman start xivomega
  | iptablesFlush (chain : String)                     -- iptables -F {chain}
  | podmanExecIptset                                   -- podman exec xivomega /home/iptset.sh
  | podmanExecPing                                     -- podman exec xivomega ping 204.2.29.7 -c 5
  | podmanRestart                                      -- podman restart xivomega
  | podmanExecNatFlush                                 -- podman exec xivomega iptables -t nat -F POSTROUTING
  | podmanExecMitigator                                -- podman exec -it xivomega /home/omega_alpha.sh
deriving DecidableEq, Repr

/-- The hard-coded destination subnets (`roadsto14` in run.py). -/
def roadsto14 : List String :=
  ["124.150.157.0/24", "153.254.80.0/24", "202.67.52.0/24", "204.2.29.0/24",
   "80.239.145.0/24"]

/-! ## Teardown and route installation (SelfDestructProtocol / SetRoutes)

Both methods wrap only the `returncode` check in `try`, while the
`subprocess.run(..., check=True)` itself sits *outside* the `try`; a
failing command therefore raises `CalledProcessError` out of the loop.
`runOutsideTry` models those call sites; `runInsideTry` models the call
sites where the `run` really is inside the `try` (failure only printed).
The oracle `ok` gives each successive command's outcome; the state is the
(next call number, list of commands issued so far). -/

def runOutsideTry (ok : Nat → Bool) (c : Cmd) :
    Nat × List Cmd → Except (Nat × List Cmd) (Nat × List Cmd)
  | (n, l) =>
    if ok n then Except.ok (n + 1, l ++ [c]) else Except.error (n + 1, l ++ [c])

def runInsideTry (_ok : Nat → Bool) (c : Cmd) : Nat × List Cmd → Nat × List Cmd
  | (n, l) => (n + 1, l ++ [c])

def runAllOutsideTry (ok : Nat → Bool) :
    List Cmd → Nat × List Cmd → Except (Nat × List Cmd) (Nat × List Cmd)
  | [], st => Except.ok st
  | c :: cs, st =>
    match runOutsideTry ok c st with
    | Except.ok st' => runAllOutsideTry ok cs st'
    | Except.error e => Except.error e

def runAllInsideTry (ok : Nat → Bool) : List Cmd → Nat × List Cmd → Nat × List Cmd
  | [], st => st
  | c :: cs, st => runAllInsideTry ok cs (runInsideTry ok c st)

/-- `WorkerClass.SetRoutes(rt14)`: the `subprocess.run` is outside the
`try`, so the first failing `ip route add` aborts the whole loop. -/
def SetRoutes (ok : Nat → Bool) (rt14 : List String) :
    Except (Nat × List Cmd) (Nat × List Cmd) :=
  runAllOutsideTry ok (rt14.map Cmd.ipRouteAdd) (0, [])

/-- The six commands of `SelfDestructProtocol` whose `run` really is
inside a `try` (failures only printed). -/
def selfDestructCaughtCmds : List Cmd :=
  [Cmd.podmanStop, Cmd.podmanNetworkDisconnect, Cmd.podmanNetworkRm,
   Cmd.podmanRm, Cmd.ipLinkSetDown, Cmd.ipLinkDel]

/-- `WorkerClass.SelfDestructProtocol`: five route removals whose `run`
is outside the `try` (a failure raises out of the routine), then six
properly guarded removals. -/
def SelfDestructProtocol (ok : Nat → Bool) :
    Except (Nat × List Cmd) (Nat × List Cmd) :=
  match runAllOutsideTry ok (roadsto14.map Cmd.ipRouteDel) (0, []) with
  | Except.error e => Except.error e
  | Except.ok st => Except.ok (runAllInsideTry ok selfDestructCaughtCmds st)

/-! ## Resource-level order of creation and removal (for the teardown
ordering claim) -/

inductive Resource where
  | netctx      -- podman ipvlan network xivlanc
  | hostif      -- host companion interface xivlanh
  | container   -- workload instance xivomega
  | attach      -- network attachment of xivomega to xivlanc
  | start       -- running state of xivomega
  | routes      -- host static routes
deriving DecidableEq, Repr

/-- Which resource a provisioning command creates. -/
def creationTarget : Cmd → Option Resource
  | Cmd.podmanNetworkCreate _ _ _ => some Resource.netctx
  | Cmd.ipLinkAddIpvlan _ => some Resource.hostif
  | Cmd.ipAddrAdd _ _ _ => some Resource.hostif
  | Cmd.ipLinkSetUp => some Resource.hostif
  | Cmd.podmanCreate _ => some Resource.container
  | Cmd.podmanNetworkConnect _ => some Resource.attach
  | Cmd.podmanStart => some Resource.start
  | Cmd.ipRouteAdd _ => some Resource.routes
  | _ => none

/-- Which resource a teardown command removes. -/
def removalTarget : Cmd → Option Resource
  | Cmd.ipRouteDel _ => some Resource.routes
  | Cmd.podmanStop => some Resource.start
  | Cmd.podmanNetworkDisconnect => some Resource.attach
  | Cmd.podmanNetworkRm => some Resource.netctx
  | Cmd.podmanRm => some Resource.container
  | Cmd.ipLinkSetDown => some Resource.hostif
  | Cmd.ipLinkDel => some Resource.hostif
  | _ => none

/-- Collapse consecutive duplicates (a multi-command resource counts
once). -/
def squeezeAdj : List Resource → List Resource
  | [] => []
  | [a] => [a]
  | a :: b :: t => if a = b then squeezeAdj (b :: t) else a :: squeezeAdj (b :: t)

/-! ## The main program (run.py: __main__)

The body of the top-level `try` is a sequential composition of external
calls; the environment supplies the configuration values, the addresses
the planner produced, and an oracle giving each successive external
call's outcome.  A call can succeed, fail, or be pre-empted by an
operator interrupt (`SIGINT` arriving at that call, raising
`KeyboardInterrupt`).  The `except` clauses and the `finally` clause
(`if rc >= 0: SelfDestructProtocol()`) are applied to the body's result
by `mainRun`.  Exceptions carry the state at the raise point, as the
`finally` clause reads the `rc` variable's current value. -/

inductive CmdOutcome where
  | ok
  | fail
  | intr
deriving DecidableEq, Repr

inductive Exc where
  | rootRequired       -- RootRequiredError
  | invalidIP          -- InvalidIPException
  | connectionFailed   -- ConnectionFailedError
  | keyboardInterrupt  -- KeyboardInterrupt
  | calledProcess      -- CalledProcessError escaping every handler
deriving DecidableEq, Repr

structure St where
  counter : Nat
  rc : Int
  log : List Cmd
deriving DecidableEq, Repr

structure Env where
  isRoot : Bool
  cfgHost : String   -- config_v of ipvlan_host
  cfgCont : String   -- config_v of ipvlan_cont
  dvip : String      -- random pick from get_vip_lip
  dlip : String
  netdev : String
  sdsubn : String
  sdgway : String
  netb : String
  brd : String
  cmd : Nat → CmdOutcome

abbrev Step := St → Except (Exc × St) St

/-- Issue one external command: consult the oracle at the current call
number.  An interrupt pre-empts the call (nothing issued); otherwise the
command is issued and the outcome reported to the call site. -/
def attemptCmd (env : Env) (c : Cmd) : St → CmdOutcome × St
  | ⟨n, rc, l⟩ =>
    match env.cmd n with
    | CmdOutcome.intr => (CmdOutcome.intr, ⟨n + 1, rc, l⟩)
    | CmdOutcome.ok => (CmdOutcome.ok, ⟨n + 1, rc, l ++ [c]⟩)
    | CmdOutcome.fail => (CmdOutcome.fail, ⟨n + 1, rc, l ++ [c]⟩)

/-- A `subprocess.run(..., check=True)` inside a `try` whose handler only
prints: failure is swallowed.  Also used for `subprocess.call` / `Popen`
sites, which never raise on a non-zero exit. -/
def caughtStep (env : Env) (c : Cmd) : Step := fun s =>
  match attemptCmd env c s with
  | (CmdOutcome.intr, s') => Except.error (Exc.keyboardInterrupt, s')
  | (_, s') => Except.ok s'

/-- A `subprocess.run(..., check=True)` with no enclosing `try` (or with
the `run` outside the `try`): failure raises `CalledProcessError`, which
no top-level handler catches. -/
def bareStep (env : Env) (c : Cmd) : Step := fun s =>
  match attemptCmd env c s with
  | (CmdOutcome.intr, s') => Except.error (Exc.keyboardInterrupt, s')
  | (CmdOutcome.fail, s') => Except.error (Exc.calledProcess, s')
  | (CmdOutcome.ok, s') => Except.ok s'

/-- The two required provisioning steps: failure is caught and recorded
as `rc = -1`, then execution falls through to the next statement. -/
def rcFailStep (env : Env) (c : Cmd) : Step := fun s =>
  match attemptCmd env c s with
  | (CmdOutcome.intr, s') => Except.error (Exc.keyboardInterrupt, s')
  | (CmdOutcome.fail, ⟨n, _, l⟩) => Except.ok ⟨n, -1, l⟩
  | (CmdOutcome.ok, s') => Except.ok s'

def andThen (f g : Step) : Step := fun s =>
  match f s with
  | Except.ok s' => g s'
  | Except.error e => Except.error e

def caughtSeq (env : Env) : List Cmd → Step
  | [] => Except.ok
  | c :: cs => andThen (caughtStep env c) (caughtSeq env cs)

def bareSeq (env : Env) : List Cmd → Step
  | [] => Except.ok
  | c :: cs => andThen (bareStep env c) (bareSeq env cs)

/-- `SelfCleaningProtocol`: pre-flight removals, every `run` inside its
`try` with failures swallowed. -/
def selfCleanCmds : List Cmd :=
  roadsto14.map Cmd.ipRouteDel ++
    [Cmd.podmanStop, Cmd.podmanRm, Cmd.podmanNetworkRm, Cmd.ipLinkSetDown,
     Cmd.ipLinkDel]

/-- `CreateHostAdapter`: three commands, each in its own `try`. -/
def hostAdapterCmds (env : Env) (vip : String) : List Cmd :=
  [Cmd.ipLinkAddIpvlan env.netdev, Cmd.ipAddrAdd vip env.netb env.brd,
   Cmd.ipLinkSetUp]

/-- `ClearNetavarkRules`: three flushes, `check=True`, no `try`. -/
def clearNetavarkCmds : List Cmd :=
  [Cmd.iptablesFlush "INPUT", Cmd.iptablesFlush "FORWARD",
   Cmd.iptablesFlush "OUTPUT"]

/-- `ReconnectProtocol`: three commands, `check=True`, no `try`. -/
def reconnectCmds : List Cmd :=
  [Cmd.podmanRestart, Cmd.podmanExecNatFlush, Cmd.podmanExecIptset]

/-- `maxAttempts` of the retry state: the source raises
`ConnectionFailedError` once its counter `ctx` exceeds 5. -/
def maxAttempts : Nat := 5

/-- The `while(ctx > 0)` connectivity loop.  The source counts attempts
upward: `ctx` starts at 1 and is incremented on each probe failure, and
after the failure's reconnect/flush/route block, `if ctx > 5` raises
`ConnectionFailedError`.  Here `budget = maxAttempts - ctx` counts the
retries still allowed downward, so the source's post-increment `ctx > 5`
test is exactly `budget = 0`; the loop is entered at `ctx = 1`, i.e.
`budget = maxAttempts - 1 = 4`. -/
def connLoop (env : Env) (budget : Nat) : Step := fun s =>
  match attemptCmd env Cmd.podmanExecPing s with
  | (CmdOutcome.intr, s1) => Except.error (Exc.keyboardInterrupt, s1)
  | (CmdOutcome.ok, s1) => Except.ok s1
  | (CmdOutcome.fail, s1) =>
    match (andThen (bareSeq env reconnectCmds)
        (andThen (bareSeq env clearNetavarkCmds)
          (bareSeq env (roadsto14.map Cmd.ipRouteAdd)))) s1 with
    | Except.error e => Except.error e
    | Except.ok s2 =>
      match budget with
      | 0 => Except.error (Exc.connectionFailed, s2)
      | b + 1 => connLoop env b s2

/-- Provisioning and mitigation setup, in source order: network create
(required), host adapter (best-effort), container create (required),
network connect / logo / start (best-effort), SetRoutes (unguarded),
ClearNetavarkRules (unguarded), iptset (guarded). -/
def provisionPhase (env : Env) (vip lip : String) : Step :=
  andThen (rcFailStep env (Cmd.podmanNetworkCreate env.sdsubn env.sdgway env.netdev))
  (andThen (caughtSeq env (hostAdapterCmds env vip))
  (andThen (rcFailStep env (Cmd.podmanCreate "10.88.0.7"))
  (andThen (caughtStep env (Cmd.podmanNetworkConnect lip))
  (andThen (caughtStep env Cmd.printLogo)
  (andThen (caughtStep env Cmd.podmanStart)
  (andThen (bareSeq env (roadsto14.map Cmd.ipRouteAdd))
  (andThen (bareSeq env clearNetavarkCmds)
  (caughtStep env Cmd.podmanExecIptset))))))))

/-- The body of the top-level `try`. -/
def body (env : Env) : Step := fun s =>
  if env.isRoot then
    (andThen (caughtSeq env selfCleanCmds)
    (andThen (bareStep env Cmd.cpStorageConf)
    (fun s2 =>
      match selectAddresses env.cfgHost env.cfgCont env.dvip env.dlip with
      | Except.error _ => Except.error (Exc.invalidIP, s2)
      | Except.ok (vip, lip) =>
        (andThen (provisionPhase env vip lip)
        (andThen (connLoop env (maxAttempts - 1))
        (caughtStep env Cmd.podmanExecMitigator))) s2))) s
  else Except.error (Exc.rootRequired, s)

structure MainResult where
  rc : Int
  teardownInvoked : Bool
  crashed : Bool
  log : List Cmd
deriving DecidableEq, Repr

/-- The `rc` value after the matching `except` clause ran (interrupts are
passed, an escaping `CalledProcessError` leaves `rc` untouched). -/
def excRc : Exc → Int → Int
  | Exc.rootRequired, _ => -1
  | Exc.invalidIP, _ => -1
  | Exc.connectionFailed, _ => 4
  | Exc.keyboardInterrupt, r => r
  | Exc.calledProcess, r => r

def isCrash : Exc → Bool
  | Exc.calledProcess => true
  | _ => false

/-- Whole-program semantics: run the body, apply the `except` clauses,
then the `finally` clause `if rc >= 0: SelfDestructProtocol()`, then
`return rc`. -/
def mainRun (env : Env) : MainResult :=
  match body env ⟨0, 0, []⟩ with
  | Except.ok s => ⟨s.rc, decide (0 ≤ s.rc), false, s.log⟩
  | Except.error (e, s) =>
    ⟨excRc e s.rc, decide (0 ≤ excRc e s.rc), isCrash e, s.log⟩

/-! ### Environment families used by the theorems -/

def baseEnv (cmdf : Nat → CmdOutcome) : Env :=
  ⟨true, "default", "default", "10.0.0.4", "10.0.0.5", "enp0s1",
   "10.0.0.0/24", "10.0.0.1", "24", "10.0.0.255", cmdf⟩

/-- Every external call succeeds. -/
def allOkEnv : Env := baseEnv (fun _ => CmdOutcome.ok)

/-- Call 11 is the `podman network create`, call 15 the `podman create`;
the two flags make exactly those calls fail. -/
def provisionEnv (netOk contOk : Bool) : Env :=
  baseEnv (fun n =>
    if n = 11 then (if netOk then CmdOutcome.ok else CmdOutcome.fail)
    else if n = 15 then (if contOk then CmdOutcome.ok else CmdOutcome.fail)
    else CmdOutcome.ok)

/-- Calls 0–27 precede the connectivity loop; probe `k` is call
`28 + 12 k` (a failed attempt issues the probe plus eleven
reconnect/flush/route commands).  `p k` decides probe `k`'s outcome;
everything else succeeds. -/
def probeOutcome (p : Nat → Bool) (n : Nat) : CmdOutcome :=
  if n < 28 then CmdOutcome.ok
  else if (n - 28) % 12 = 0 then
    (if p ((n - 28) / 12) then CmdOutcome.ok else CmdOutcome.fail)
  else CmdOutcome.ok

def probeEnv (p : Nat → Bool) : Env := baseEnv (probeOutcome p)

/-- The operator interrupts immediately: the very first external call of
the run is pre-empted by SIGINT. -/
def intrEnv : Env := baseEnv (fun _ => CmdOutcome.intr)

/-- Splice five explicit probe outcomes onto an arbitrary tail: every
probe function equals `qFun (p 0) (p 1) (p 2) (p 3) (p 4) p`, which lets
a finite case analysis cover all runs (the loop never consults a probe
beyond the fifth). -/
def qFun (b0 b1 b2 b3 b4 : Bool) (p : Nat → Bool) : Nat → Bool
  | 0 => b0
  | 1 => b1
  | 2 => b2
  | 3 => b3
  | 4 => b4
  | k + 5 => p (k + 5)

/-! ### Resource orders for the teardown-ordering claim -/

/-- Teardown command trace when every removal succeeds. -/
def teardownLogAll : List Cmd :=
  match SelfDestructProtocol (fun _ => true) with
  | Except.ok st => st.2
  | Except.error e => e.2

/-- Resource-level creation order of a fully successful run. -/
def creationOrder : List Resource :=
  squeezeAdj ((mainRun allOkEnv).log.filterMap creationTarget)

/-- Resource-level removal order of a fully successful teardown. -/
def removalOrder : List Resource :=
  squeezeAdj (teardownLogAll.filterMap removalTarget)

/-! ### The allocation scenario of the spec (adapter 10.0.0.5/24,
discovery reports 10.0.0.2 and 10.0.0.3 in use) -/

def scenarioIps : List String := ["10.0.0.2", "10.0.0.3"]

/-- 167772165 is 10.0.0.5; the subnet enumerated from its /24 network
address. -/
def scenarioAllip : List String := allipOf (networkAddressOf 167772165 24) 24

/-- The claim's asserted pool: 10.0.0.4 … 10.0.0.252. -/
def claimedPool : List String :=
  (List.range 249).map (fun k => ipToString (167772164 + k))

/-- The pool the code actually draws from in this scenario:
10.0.0.4 … 10.0.0.253. -/
def codePool : List String :=
  (List.range 250).map (fun k => ipToString (167772164 + k))

instance exceptDecEq {α β : Type} [DecidableEq α] [DecidableEq β] :
    DecidableEq (Except α β)
  | Except.ok a, Except.ok b =>
    if h : a = b then isTrue (by rw [h]) else isFalse (by simp [h])
  | Except.ok _, Except.error _ => isFalse (by simp)
  | Except.error _, Except.ok _ => isFalse (by simp)
  | Except.error e, Except.error f =>
    if h : e = f then isTrue (by rw [h]) else isFalse (by simp [h])

/-! ## Theorems -/

theorem cidr_to_netmask_eq_specNetmask {p : Nat} (hp : p ≤ 32) :
    cidr_to_netmask p = specNetmask p := by
  unfold cidr_to_netmask specNetmask
  rw [Nat.shiftLeft_eq, Nat.shiftLeft_eq, Nat.one_mul, Nat.one_mul,
    Nat.sub_mul, Nat.one_mul, ← Nat.pow_add]
  congr 2
  omega

theorem testBit_cidr_to_netmask {p : Nat} (hp : p ≤ 32) (i : Nat) :
    (cidr_to_netmask p).testBit i = decide (32 - p ≤ i ∧ i < 32) := by
  have h : cidr_to_netmask p = (2 ^ p - 1) <<< (32 - p) := by
    rw [Nat.shiftLeft_eq, cidr_to_netmask_eq_specNetmask hp, specNetmask]
  rw [h, Nat.testBit_shiftLeft, Nat.testBit_two_pow_sub_one]
  rcases Nat.lt_or_ge i (32 - p) with hlt | hge
  · simp [Nat.not_le_of_lt hlt]
  · have hiff : i - (32 - p) < p ↔ i < 32 := by omega
    simp [hge, hiff]

/-- The truncation characterisation of AND-with-netmask: the network
address is the adapter address with its low `32 - p` bits cleared. -/
theorem networkAddressOf_eq_div_mul {addr p : Nat} (hp : p ≤ 32)
    (ha : addr < 2 ^ 32) :
    networkAddressOf addr p = addr / 2 ^ (32 - p) * 2 ^ (32 - p) := by
  apply Nat.eq_of_testBit_eq
  intro i
  rw [networkAddressOf, Nat.testBit_and, testBit_cidr_to_netmask hp]
  have hdm : addr / 2 ^ (32 - p) * 2 ^ (32 - p) =
      2 ^ (32 - p) * (addr / 2 ^ (32 - p)) := by ring
  rw [hdm, Nat.testBit_mul_pow_two]
  rcases Nat.lt_or_ge i (32 - p) with hlt | hge
  · simp [Nat.not_le_of_lt hlt, hlt]
  · rcases Nat.lt_or_ge i 32 with h32 | h32
    · have hs : (addr >>> (32 - p)).testBit (i - (32 - p)) = addr.testBit i := by
        rw [Nat.testBit_shiftRight]
        congr 1
        omega
      rw [Nat.shiftRight_eq_div_pow] at hs
      simp [hge, h32, hs]
    · have : addr.testBit i = false :=
        Nat.testBit_lt_two_pow (Nat.lt_of_lt_of_le ha (Nat.pow_le_pow_right (by omega) h32))
      have hd : addr / 2 ^ (32 - p) < 2 ^ (i - (32 - p)) := by
        apply Nat.div_lt_of_lt_mul
        calc addr < 2 ^ 32 := ha
          _ ≤ 2 ^ ((32 - p) + (i - (32 - p))) := Nat.pow_le_pow_right (by omega) (by omega)
          _ = 2 ^ (32 - p) * 2 ^ (i - (32 - p)) := by rw [Nat.pow_add]
      simp [this, Nat.testBit_lt_two_pow hd]

theorem hostmask_eq {p : Nat} (hp : p ≤ 32) :
    cidr_to_netmask p ^^^ ((1 <<< 32) - 1) = 2 ^ (32 - p) - 1 := by
  apply Nat.eq_of_testBit_eq
  intro i
  have h1 : ((1:Nat) <<< 32) - 1 = 2 ^ 32 - 1 := by
    rw [Nat.shiftLeft_eq, Nat.one_mul]
  rw [Nat.testBit_xor, h1, Nat.testBit_two_pow_sub_one,
    Nat.testBit_two_pow_sub_one, testBit_cidr_to_netmask hp]
  rcases Nat.lt_or_ge i (32 - p) with hlt | hge
  · have h32 : i < 32 := by omega
    simp [Nat.not_le_of_lt hlt, hlt, h32]
  · have hnp : ¬ i < 32 - p := by omega
    rcases Nat.lt_or_ge i 32 with h32 | h32
    · simp [hge, h32, hnp]
    · have hn32 : ¬ i < 32 := by omega
      simp [hn32, hnp]

/-- The additive characterisation of broadcast: network plus the number of
host addresses minus one. -/
theorem broadcastOf_eq_add {addr p : Nat} (hp : p ≤ 32) (ha : addr < 2 ^ 32) :
    broadcastOf addr p = networkAddressOf addr p + (2 ^ (32 - p) - 1) := by
  rw [broadcastOf, hostmask_eq hp, networkAddressOf_eq_div_mul hp ha]
  have hmul : addr / 2 ^ (32 - p) * 2 ^ (32 - p) =
      2 ^ (32 - p) * (addr / 2 ^ (32 - p)) := by ring
  rw [hmul, ← Nat.mul_add_lt_is_or (Nat.sub_lt (Nat.two_pow_pos _) Nat.one_pos)
    (addr / 2 ^ (32 - p))]

/-- Claim C9: for every valid adapter CIDR with prefix `0 ≤ p ≤ 32`, the
computed subnet network address equals the adapter address bitwise-ANDed
with the p-bit netmask, and the computed broadcast address equals that
network address bitwise-ORed with the complement of the netmask; in
arithmetic terms, the network address truncates the low `32 - p` bits of
the address and the broadcast adds `2^(32-p) - 1` to it. -/
theorem C9_subnet_arithmetic (p addr : Nat) (hp : p ≤ 32) (ha : addr < 2 ^ 32) :
    networkAddressOf addr p = specNetwork addr p ∧
    broadcastOf addr p = specBroadcast addr p ∧
    networkAddressOf addr p = addr / 2 ^ (32 - p) * 2 ^ (32 - p) ∧
    broadcastOf addr p = networkAddressOf addr p + (2 ^ (32 - p) - 1) := by
  have h1 : ((1:Nat) <<< 32) - 1 = 2 ^ 32 - 1 := by
    rw [Nat.shiftLeft_eq, Nat.one_mul]
  refine ⟨?_, ?_, networkAddressOf_eq_div_mul hp ha, broadcastOf_eq_add hp ha⟩
  · rw [networkAddressOf, specNetwork, cidr_to_netmask_eq_specNetmask hp]
  · rw [broadcastOf, specBroadcast, networkAddressOf, specNetwork,
      cidr_to_netmask_eq_specNetmask hp, h1]

/-- Witness for C9 at the spec's scenario address 10.0.0.5/24
(167772165). -/
theorem C9_subnet_arithmetic_witness :
    networkAddressOf 167772165 24 = specNetwork 167772165 24 ∧
    broadcastOf 167772165 24 = specBroadcast 167772165 24 ∧
    networkAddressOf 167772165 24 = 167772165 / 2 ^ (32 - 24) * 2 ^ (32 - 24) ∧
    broadcastOf 167772165 24 = networkAddressOf 167772165 24 + (2 ^ (32 - 24) - 1) :=
  C9_subnet_arithmetic 24 167772165 (by decide) (by decide)

/-! ### Allocator soundness -/

theorem resPool_nodup {ips allip : List String} (h : allip.Nodup) :
    (resPool ips allip).Nodup := by
  apply List.Nodup.filter
  apply List.Nodup.sublist (List.dropLast_sublist _)
  apply List.Nodup.sublist (List.dropLast_sublist _)
  exact List.Nodup.sublist (List.drop_sublist 3 allip) h

theorem resPool_not_mem_ips {ips allip : List String} {x : String}
    (hx : x ∈ resPool ips allip) : x ∉ ips := by
  have := List.of_mem_filter hx
  exact of_decide_eq_true this

/-- What the allocator's random branch guarantees: the two sampled
addresses are distinct and avoid every discovered in-use address. -/
theorem get_vip_lip_sound {ips allip : List String} {i j : Nat}
    {v l : String} (hnd : allip.Nodup)
    (h : get_vip_lip ips allip i j = some (v, l)) :
    v ≠ l ∧ v ∉ ips ∧ l ∉ ips := by
  unfold get_vip_lip at h
  split at h
  case isFalse => exact absurd h (by simp)
  case isTrue hc =>
    simp only [Option.some.injEq, Prod.mk.injEq] at h
    obtain ⟨hv, hl⟩ := h
    have hres : (resPool ips allip).Nodup := resPool_nodup hnd
    refine ⟨?_, ?_, ?_⟩
    · intro hvl
      apply hc.2.2
      have := (List.Nodup.get_inj_iff hres).mp (hv.trans (hvl.trans hl.symm))
      exact congrArg Fin.val this
    · exact resPool_not_mem_ips (hv ▸ List.get_mem (resPool ips allip) i hc.1)
    · exact resPool_not_mem_ips (hl ▸ List.get_mem (resPool ips allip) j hc.2.1)

theorem get_vip_lip_mem {ips allip : List String} {i j : Nat} {v l : String}
    (h : get_vip_lip ips allip i j = some (v, l)) :
    v ∈ resPool ips allip ∧ l ∈ resPool ips allip := by
  unfold get_vip_lip at h
  split at h
  case isFalse => exact absurd h (by simp)
  case isTrue hc =>
    simp only [Option.some.injEq, Prod.mk.injEq] at h
    obtain ⟨hv, hl⟩ := h
    exact ⟨hv ▸ List.get_mem (resPool ips allip) i hc.1,
      hl ▸ List.get_mem (resPool ips allip) j hc.2.1⟩

set_option maxHeartbeats 4000000 in
set_option maxRecDepth 100000 in
/-- Parsing each scenario subnet string back to its 32-bit value recovers
the ascending range starting at 167772160 (10.0.0.0). -/
theorem scenarioAllip_map_ipNatOf :
    scenarioAllip.map ipNatOf = (List.range 256).map (fun k => 167772160 + k) := by
  decide

set_option maxHeartbeats 4000000 in
set_option maxRecDepth 100000 in
theorem scenarioAllip_nodup : scenarioAllip.Nodup := by
  have h2 : ((List.range 256).map (fun k => 167772160 + k)).Nodup :=
    List.Nodup.map (fun a b hab => by omega) (List.nodup_range 256)
  rw [← scenarioAllip_map_ipNatOf] at h2
  exact List.Nodup.of_map ipNatOf h2

/-- Claim C4 (code_bug in the source): with both overrides set, the
validation condition tests the host-side override twice and never the
workload-side one, so a syntactically invalid `ipvlan_cont` such as
"999.1.2.3" is accepted verbatim instead of raising
`InvalidIPException`; the three other override combinations do reject an
invalid value. -/
theorem C4_invalid_override_accepted :
    is_valid_ipv4_address "999.1.2.3" = false ∧
    is_valid_ipv4_address "10.0.0.9" = true ∧
    selectAddresses "10.0.0.9" "999.1.2.3" "10.0.0.4" "10.0.0.5" =
      Except.ok ("10.0.0.9", "999.1.2.3") ∧
    selectAddresses "999.1.2.3" "10.0.0.9" "10.0.0.4" "10.0.0.5" =
      Except.error () ∧
    selectAddresses "999.1.2.3" "default" "10.0.0.4" "10.0.0.5" =
      Except.error () ∧
    selectAddresses "default" "999.1.2.3" "10.0.0.4" "10.0.0.5" =
      Except.error () := by
  decide

/-- Claim C5, counterexample: configured overrides are taken as given, so
setting both overrides to the same valid address produces an assignment
whose host-side and workload-side addresses coincide. -/
theorem C5_counterexample :
    selectAddresses "10.0.0.9" "10.0.0.9" "10.0.0.4" "10.0.0.5" =
      Except.ok ("10.0.0.9", "10.0.0.9") ∧
    is_valid_ipv4_address "10.0.0.9" = true := by
  decide

/-- Claim C5 as amended: the *randomly allocated* pair is always two
distinct addresses, neither of which appears in the discovery result
set; assignments built from configured overrides bypass both checks. -/
theorem C5_random_allocation_distinct {ips allip : List String} {i j : Nat}
    {v l : String} (hnd : allip.Nodup)
    (h : get_vip_lip ips allip i j = some (v, l)) :
    v ≠ l ∧ v ∉ ips ∧ l ∉ ips :=
  get_vip_lip_sound hnd h

/-- Witness for the amended C5 on a small concrete subnet. -/
theorem C5_random_allocation_distinct_witness :
    (("10.0.0.3" : String) ≠ "10.0.0.5") ∧
    ("10.0.0.3" : String) ∉ (["10.0.0.4"] : List String) ∧
    ("10.0.0.5" : String) ∉ (["10.0.0.4"] : List String) :=
  @C5_random_allocation_distinct ["10.0.0.4"]
    ["10.0.0.0", "10.0.0.1", "10.0.0.2", "10.0.0.3", "10.0.0.4", "10.0.0.5",
     "10.0.0.6", "10.0.0.7"]
    0 1 "10.0.0.3" "10.0.0.5" (by decide) (by decide)

set_option maxHeartbeats 4000000 in
set_option maxRecDepth 100000 in
/-- Claim C6, counterexample: in the spec's scenario the candidate pool
is `allip[3:-2]` minus the in-use set, which still contains 10.0.0.253;
the draw (249, 0) returns it, so the allocator can return an address
outside the claimed set 10.0.0.4 … 10.0.0.252. -/
theorem C6_counterexample :
    get_vip_lip scenarioIps scenarioAllip 249 0 =
      some ("10.0.0.253", "10.0.0.4") ∧
    ("10.0.0.253" : String) ∉ claimedPool := by
  decide

set_option maxHeartbeats 4000000 in
set_option maxRecDepth 100000 in
theorem scenario_resPool_eq : resPool scenarioIps scenarioAllip = codePool := by
  decide

/-- Claim C6 as amended: in the scenario the pool is exactly
10.0.0.4 … 10.0.0.253 (addresses at offsets 3 through N-3 of the subnet,
minus the in-use set), and every draw returns two distinct addresses
from that pool, excluding 10.0.0.2 and 10.0.0.3. -/
theorem C6_scenario_pool {i j : Nat} {v l : String}
    (h : get_vip_lip scenarioIps scenarioAllip i j = some (v, l)) :
    v ∈ codePool ∧ l ∈ codePool ∧ v ≠ l ∧
      v ∉ scenarioIps ∧ l ∉ scenarioIps := by
  obtain ⟨hvl, hv, hl⟩ := get_vip_lip_sound scenarioAllip_nodup h
  obtain ⟨hmv, hml⟩ := get_vip_lip_mem h
  rw [scenario_resPool_eq] at hmv hml
  exact ⟨hmv, hml, hvl, hv, hl⟩

set_option maxHeartbeats 4000000 in
set_option maxRecDepth 100000 in
/-- Witness for the amended C6: the draw (0, 1). -/
theorem C6_scenario_pool_witness :
    ("10.0.0.4" : String) ∈ codePool ∧ ("10.0.0.5" : String) ∈ codePool ∧
      ("10.0.0.4" : String) ≠ "10.0.0.5" ∧
      ("10.0.0.4" : String) ∉ scenarioIps ∧
      ("10.0.0.5" : String) ∉ scenarioIps :=
  @C6_scenario_pool 0 1 "10.0.0.4" "10.0.0.5" (by decide)

/-! ### Best-effort claims about SetRoutes / SelfDestructProtocol -/

/-- Claim C7 (code_bug in the source): the `subprocess.run(check=True)`
of the route loops sits outside the `try`, so a failing `ip route add`
aborts `SetRoutes` at the first route, and a failing `ip route del`
aborts `SelfDestructProtocol` before any later sub-step (here: with
every call after the first succeeding, `podman stop` is never
attempted). -/
theorem C7_route_failure_aborts :
    SetRoutes (fun _ => false) roadsto14 =
      Except.error (1, [Cmd.ipRouteAdd "124.150.157.0/24"]) ∧
    SelfDestructProtocol (fun n => decide (n ≠ 0)) =
      Except.error (1, [Cmd.ipRouteDel "124.150.157.0/24"]) ∧
    Cmd.podmanStop ∉ [Cmd.ipRouteDel "124.150.157.0/24"] := by
  decide

/-- Claim C8 (code_bug in the source): invoked with nothing provisioned,
every removal command fails; the first `ip route del` failure raises an
uncaught `CalledProcessError`, so teardown does not complete normally
and the ten remaining removal commands are never issued. -/
theorem C8_empty_teardown_raises :
    SelfDestructProtocol (fun _ => false) =
      Except.error (1, [Cmd.ipRouteDel "124.150.157.0/24"]) := by
  decide

/-! ### Required-step failure (claim C1) -/

/-- Claim C1, counterexample: with the `podman network create` call
failing and everything else succeeding, the run ends with `rc = -1`, yet
the workload-instance creation, the attachment and the start were all
still attempted afterwards, and the teardown routine is *not* invoked
(the finaliser guards it with `rc >= 0`). -/
theorem C1_counterexample :
    (mainRun (provisionEnv false true)).rc = -1 ∧
    (mainRun (provisionEnv false true)).teardownInvoked = false ∧
    Cmd.podmanCreate "10.88.0.7" ∈ (mainRun (provisionEnv false true)).log ∧
    Cmd.podmanNetworkConnect "10.0.0.5" ∈ (mainRun (provisionEnv false true)).log ∧
    Cmd.podmanStart ∈ (mainRun (provisionEnv false true)).log := by
  decide

/-- Claim C1 as amended: if the isolated-network-context creation or the
workload-instance creation fails (the rest of the environment
cooperating), the run records `rc = -1` but continues through all
remaining provisioning steps, and on that exit path the teardown routine
is not invoked, because the finaliser runs it only when `rc ≥ 0`. -/
theorem C1_required_step_failure : ∀ netOk contOk : Bool,
    netOk = false ∨ contOk = false →
    (mainRun (provisionEnv netOk contOk)).rc = -1 ∧
    (mainRun (provisionEnv netOk contOk)).teardownInvoked = false ∧
    Cmd.podmanCreate "10.88.0.7" ∈ (mainRun (provisionEnv netOk contOk)).log ∧
    Cmd.podmanNetworkConnect "10.0.0.5" ∈ (mainRun (provisionEnv netOk contOk)).log ∧
    Cmd.podmanStart ∈ (mainRun (provisionEnv netOk contOk)).log ∧
    Cmd.ipRouteAdd "124.150.157.0/24" ∈ (mainRun (provisionEnv netOk contOk)).log := by
  decide

/-- Witness for the amended C1: network-context creation fails. -/
theorem C1_required_step_failure_witness :
    (mainRun (provisionEnv false true)).teardownInvoked = false ∧
    Cmd.ipRouteAdd "124.150.157.0/24" ∈ (mainRun (provisionEnv false true)).log :=
  ⟨(C1_required_step_failure false true (Or.inl rfl)).2.1,
    (C1_required_step_failure false true (Or.inl rfl)).2.2.2.2.2⟩

/-! ### The retry budget (claim C2) -/

theorem qFun_eta (p : Nat → Bool) :
    p = qFun (p 0) (p 1) (p 2) (p 3) (p 4) p := by
  funext k
  match k with
  | 0 => rfl
  | 1 => rfl
  | 2 => rfl
  | 3 => rfl
  | 4 => rfl
  | n + 5 => rfl

set_option maxHeartbeats 1000000 in
/-- Finite core of the retry-budget analysis: with the first five probe
outcomes explicit (and an arbitrary tail, which the loop never reaches),
the run exits with code 4 and teardown exactly when all five fail. -/
theorem connLoop_five_probes : ∀ (b0 b1 b2 b3 b4 : Bool) (p : Nat → Bool),
    ((mainRun (probeEnv (qFun b0 b1 b2 b3 b4 p))).rc = 4 ∧
      (mainRun (probeEnv (qFun b0 b1 b2 b3 b4 p))).teardownInvoked = true) ↔
    (b0 = false ∧ b1 = false ∧ b2 = false ∧ b3 = false ∧ b4 = false) := by
  intro b0 b1 b2 b3 b4 p
  cases b0 <;> cases b1 <;> cases b2 <;> cases b3 <;> cases b4 <;>
    exact of_decide_eq_true rfl

/-- Claim C2: for every sequence of probe outcomes, the run exits with
return code 4 and a teardown invocation exactly when the first five
probes all fail — never after fewer failed probes, never after more (a
success among the first five ends the loop, and five failures exhaust
`maxAttempts = 5` since the counter entered at 1); on that path exactly
five probes were issued. -/
theorem C2_retry_budget :
    (∀ p : Nat → Bool,
      ((mainRun (probeEnv p)).rc = 4 ∧
        (mainRun (probeEnv p)).teardownInvoked = true) ↔
      (∀ k, k < 5 → p k = false)) ∧
    (mainRun (probeEnv (fun _ => false))).log.count Cmd.podmanExecPing = 5 := by
  constructor
  · intro p
    have h := connLoop_five_probes (p 0) (p 1) (p 2) (p 3) (p 4) p
    rw [← qFun_eta p] at h
    rw [h]
    constructor
    · rintro ⟨h0, h1, h2, h3, h4⟩ k hk
      interval_cases k <;> assumption
    · intro hall
      exact ⟨hall 0 (by omega), hall 1 (by omega), hall 2 (by omega),
        hall 3 (by omega), hall 4 (by omega)⟩
  · decide

/-- Witness for C2: all probes failing yields exit code 4 with teardown. -/
theorem C2_retry_budget_witness :
    (mainRun (probeEnv (fun _ => false))).rc = 4 ∧
    (mainRun (probeEnv (fun _ => false))).teardownInvoked = true :=
  (C2_retry_budget.1 (fun _ => false)).mpr (fun _ _ => rfl)

/-! ### Teardown ordering (claim C3) -/

/-- Claim C3, counterexample: the creation order is network context,
host interface, container, attachment, start, routes — but the removal
order is not its exact reverse (the network context is removed before
the container and the host interface). -/
theorem C3_counterexample :
    creationOrder = [Resource.netctx, Resource.hostif, Resource.container,
      Resource.attach, Resource.start, Resource.routes] ∧
    removalOrder ≠ creationOrder.reverse := by
  decide

/-- Claim C3 as amended: teardown removes routes, running state,
attachment as the reverse of creation, but then removes the isolated
network context *before* the workload instance and the host companion
interface, so the order deviates from the strict reverse in its last
three entries. -/
theorem C3_teardown_order :
    removalOrder = [Resource.routes, Resource.start, Resource.attach,
      Resource.netctx, Resource.container, Resource.hostif] ∧
    creationOrder.reverse = [Resource.routes, Resource.start, Resource.attach,
      Resource.container, Resource.hostif, Resource.netctx] := by
  decide

/-! ### Operator interruption (claim C10) -/

/-- Claim C10: whenever the body of the run is pre-empted by a
`KeyboardInterrupt` while `rc` is still 0 (no fatal error recorded
before the interrupt), the handler passes, the finaliser invokes full
teardown, and the process returns 0 — indistinguishable at the exit-code
interface from a successful run. -/
theorem C10_interrupt_clean_exit (env : Env) (s : St)
    (h : body env ⟨0, 0, []⟩ = Except.error (Exc.keyboardInterrupt, s))
    (h0 : s.rc = 0) :
    (mainRun env).rc = 0 ∧ (mainRun env).teardownInvoked = true ∧
      (mainRun env).crashed = false := by
  unfold mainRun
  rw [h]
  simp [excRc, isCrash, h0]

/-- Witness for C10: the very first external call is interrupted. -/
theorem C10_interrupt_clean_exit_witness :
    (mainRun intrEnv).rc = 0 ∧ (mainRun intrEnv).teardownInvoked = true ∧
      (mainRun intrEnv).crashed = false :=
  C10_interrupt_clean_exit intrEnv ⟨1, 0, []⟩ rfl rfl

end Xivomega
